import Mathlib

/-!
Shallow embedding of the network layer of the `duniter-bma` repository
(`src/index.js`, `src/lib/network.js` = `src/unnamed/part_000`, `src/lib/upnp.js`),
together with theorems settling the specification claims about it.

JavaScript conventions are embedded as follows: an object field that may be
`undefined` or `null` becomes an `Option`; JS truthiness of strings (empty
string is falsy) and of numbers (0 is falsy) is made explicit through the
`sTruthy` / `nTruthy` helpers; asynchronous steps become explicit sequential
state passing; code that may throw returns `Except`.
-/

namespace DuniterBMA

/-- JS truthiness of an optional string configuration field: `undefined` and
`null` are falsy, and so is the empty string. -/
def sTruthy : Option String → Bool
  | none => false
  | some s => !(s.data.isEmpty)

/-- JS truthiness of an optional numeric configuration field: `undefined`,
`null` and `0` are falsy. -/
def nTruthy : Option Nat → Bool
  | none => false
  | some n => n != 0

/-- One OS-reported address of a network interface, as consumed by
`os.networkInterfaces()` callers in `lib/network.js`. -/
structure Addr where
  family : String
  address : String
  internal : Bool
  scopeid : Nat
deriving DecidableEq, Repr

/-- One OS network interface: its name and its ordered address list
(`listInterfaces` in `lib/network.js`). -/
structure NetInterface where
  name : String
  addresses : List Addr
deriving DecidableEq, Repr

/-- The mutable `conf` object threaded through the configuration resolver in
`index.js`. Every field starts absent (`undefined`). -/
structure Conf where
  port : Option Nat := none
  remoteport : Option Nat := none
  ipv4 : Option String := none
  ipv6 : Option String := none
  remoteipv4 : Option String := none
  remoteipv6 : Option String := none
  remotehost : Option String := none
  upnp : Option Bool := none
deriving DecidableEq, Repr

/-- The object returned by a successful `network.upnpConf` probe: exactly the
four fields the probe assigns (`lib/network.js`, function `upnpConf`). -/
structure UpnpNetConf where
  remoteipv4 : Option String
  remoteport : Nat
  port : Nat
  ipv4 : Option String
deriving DecidableEq, Repr

/-! ## Interface inventory: `getBestLocal`, `getBestLocalIPv6` -/

/-- A token of one of the anchored interface-name patterns of
`interfacePriorityRegCatcher`: a literal character or a `\d` digit class. -/
inductive Tok where
  | lit (c : Char)
  | dig
deriving DecidableEq, Repr

/-- Whether a pattern (a `^`-anchored regex made of literals and `\d`)
matches a prefix of the given character list. -/
def matchToks : List Tok → List Char → Bool
  | [], _ => true
  | _ :: _, [] => false
  | Tok.lit p :: ps, c :: cs => c == p && matchToks ps cs
  | Tok.dig :: ps, c :: cs => c.isDigit && matchToks ps cs

/-- Literal characters of a string, as pattern tokens. -/
def litToks (s : String) : List Tok :=
  s.data.map Tok.lit

/-- The fixed interface-name priority list of `getBestLocal`
(`lib/network.js`): `^tun\d`, `^enp\ds\d`, `^enp\ds\df\d`, `^eth\d`,
`^Ethernet`, `^wlp\ds\d`, `^wlan\d`, `^Wi-Fi`, `^lo`, `^Loopback`, `^None`. -/
def interfacePriorityRegCatcher : List (List Tok) :=
  [ litToks "tun" ++ [Tok.dig],
    litToks "enp" ++ [Tok.dig] ++ litToks "s" ++ [Tok.dig],
    litToks "enp" ++ [Tok.dig] ++ litToks "s" ++ [Tok.dig] ++ litToks "f" ++ [Tok.dig],
    litToks "eth" ++ [Tok.dig],
    litToks "Ethernet",
    litToks "wlp" ++ [Tok.dig] ++ litToks "s" ++ [Tok.dig],
    litToks "wlan" ++ [Tok.dig],
    litToks "Wi-Fi",
    litToks "lo",
    litToks "Loopback",
    litToks "None" ]

/-- The sort key of `_.sortBy` in `getBestLocal`: the index of the first
matching priority pattern, or the length of the pattern list when none
matches. `List.findIdx` returns the list length on no match, exactly as the
source's fallback `return interfacePriorityRegCatcher.length`. -/
def nameRank (name : String) : Nat :=
  List.findIdx (fun p => matchToks p name.data) interfacePriorityRegCatcher

/-- One entry of the candidate list `res` built by `getBestLocal`:
interface name plus address value. -/
structure Cand where
  name : String
  value : String
deriving DecidableEq, Repr

/-- The candidates one interface contributes to `res` in `getBestLocal`:
its addresses of the requested family, in OS order. -/
def ifaceCands (family : String) (ni : NetInterface) : List Cand :=
  (ni.addresses.filter (fun a => a.family == family)).map
    (fun a => { name := ni.name, value := a.address })

/-- The full candidate list `res` of `getBestLocal`: interfaces in OS
enumeration order, each contributing its matching addresses in order. -/
def candidates (family : String) (ifs : List NetInterface) : List Cand :=
  ifs.foldr (fun ni acc => ifaceCands family ni ++ acc) []

/-- The head of the stable sort `_.sortBy(res, rank)[0]` of `getBestLocal`:
underscore's `sortBy` is stable (ties keep list order), so the head of the
sorted list is the first candidate whose rank is minimal. A later candidate
replaces the current best only when its rank is strictly smaller. -/
def bestOf : List Cand → Option Cand
  | [] => none
  | c :: cs =>
    match bestOf cs with
    | none => some c
    | some b => if nameRank b.name < nameRank c.name then some b else some c

/-- `getBestLocal(family)` of `lib/network.js`: build the candidate list from
the OS interfaces, rank it by the interface-name priority patterns, and
return the best candidate's address; `(best && best.value) || ""` yields the
empty string when there is no candidate or its value is the empty string. -/
def getBestLocal (family : String) (ifs : List NetInterface) : String :=
  match bestOf (candidates family ifs) with
  | none => ""
  | some b => if b.value.data.isEmpty then "" else b.value

/-- `getBestLocalIPv4` of `lib/network.js`. -/
def getBestLocalIPv4 (ifs : List NetInterface) : String :=
  getBestLocal "IPv4" ifs

/-- Whether one character list is a prefix of another, comparing characters
with `==`; this embeds an anchored literal regex test such as `/^fe80/`. -/
def charsStartWith : List Char → List Char → Bool
  | [], _ => true
  | _ :: _, [] => false
  | p :: ps, c :: cs => c == p && charsStartWith ps cs

/-- The qualification test of `getBestLocalIPv6` (`lib/network.js`): the
underscore `where` clause keeps addresses with `family: 'IPv6'`,
`scopeid: 0`, `internal: false`, and the subsequent filter drops addresses
matching `/^fe80/` or `/^::1/`. -/
def ipv6Qualifies (a : Addr) : Bool :=
  a.family == "IPv6" && a.scopeid == 0 && !a.internal &&
    !(charsStartWith "fe80".data a.address.data) &&
    !(charsStartWith "::1".data a.address.data)

/-- `getBestLocalIPv6` of `lib/network.js`: walk the interfaces in OS
enumeration order and return the first qualifying address (`filtered2[0]`,
i.e. the first element surviving both filters) of the first interface that
has one; return `null` when no interface does. -/
def getBestLocalIPv6 : List NetInterface → Option String
  | [] => none
  | ni :: rest =>
    match ni.addresses.find? ipv6Qualifies with
    | some a => some a.address
    | none => getBestLocalIPv6 rest

/-- The IPv6 candidates of an interface, in the `Cand` shape used by the
priority ranking. -/
def ifaceCandsIPv6 (ni : NetInterface) : List Cand :=
  (ni.addresses.filter ipv6Qualifies).map
    (fun a => { name := ni.name, value := a.address })

/-- The IPv6 selection as the specification words it: choose among the
qualifying (non-internal, zero-scope, non-link-local, non-loopback)
addresses according to the same fixed interface-name priority order as the
IPv4 selection. Stated for comparison with `getBestLocalIPv6`, which is the
function the source actually defines. -/
def specBestLocalIPv6 (ifs : List NetInterface) : Option String :=
  (bestOf (ifs.foldr (fun ni acc => ifaceCandsIPv6 ni ++ acc) [])).map
    (fun b => b.value)

/-! ## Port drawing and the UPnP probe -/

/-- `getRandomPort(conf)` of `lib/network.js`: if the configuration already
knows a (truthy) remote port, return it; otherwise draw a random port.
`constants.js` is not part of the sources, so the floor `PORT_START` is a
parameter, and the random draw `~~(Math.random() * (65536 - PORT_START))`
is the parameter `rnd` (the hypotheses of the theorems bound it by the range
of that expression). -/
def getRandomPort (PORT_START rnd : Nat) (conf : Conf) : Nat :=
  match conf.remoteport with
  | some p => if p != 0 then p else rnd + PORT_START
  | none => rnd + PORT_START

/-- Whether a character list is one to three decimal digits. -/
def isDigitGroup (g : List Char) : Bool :=
  decide (1 ≤ g.length) && decide (g.length ≤ 3) && g.all Char.isDigit

/-- Split a character list at every dot. -/
def splitOnDot : List Char → List (List Char)
  | [] => [[]]
  | c :: cs =>
    let rest := splitOnDot cs
    if c == '.' then [] :: rest
    else
      match rest with
      | [] => [[c]]
      | g :: gs => (c :: g) :: gs

/-- Modelled from the spec: the repository's `lib/constants.js`, which
defines `IPV4_REGEXP`, is not under `src/`; the spec calls it "the
dotted-quad IPv4 pattern", modelled here as four groups of one to three
decimal digits separated by dots. -/
def matchIPv4 (s : String) : Bool :=
  match splitOnDot s.data with
  | [a, b, c, d] => isDigitGroup a && isDigitGroup b && isDigitGroup c && isDigitGroup d
  | _ => false

/-- `upnpConf(noupnp, logger)` of `lib/network.js`. The gateway interactions
are inputs: `externalIp` is the `client.externalIp` call, `mapping` the
`client.portMapping` call and `gatewayLocalIp` the `client.findGateway`
call, each an `Except` since each may throw. The probe draws one random
port (on an empty `conf`, so the random branch of `getRandomPort` is taken)
used as both private and public port, throws `No UPnP` when `noupnp` is
set, and otherwise fills the four probe fields, nulling `remoteipv4` /
`ipv4` when the reported address does not match the IPv4 pattern. -/
def upnpConf (PORT_START rnd : Nat) (noupnp : Bool)
    (externalIp : Except String String) (mapping : Except String Unit)
    (gatewayLocalIp : Except String String) : Except String UpnpNetConf :=
  let privatePort := getRandomPort PORT_START rnd {}
  let publicPort := privatePort
  if noupnp then Except.error "No UPnP"
  else
    match externalIp with
    | Except.error e => Except.error e
    | Except.ok publicIP =>
      match mapping with
      | Except.error e => Except.error e
      | Except.ok _ =>
        match gatewayLocalIp with
        | Except.error e => Except.error e
        | Except.ok privateIP =>
          Except.ok
            { remoteipv4 := if matchIPv4 publicIP then some publicIP else none,
              remoteport := publicPort,
              port := privatePort,
              ipv4 := if matchIPv4 privateIP then some privateIP else none }

/-- `upnpResolve(noupnp, logger, done)` of `index.js`: the probe runs inside
a `try`; on success the waterfall continues with `(true, conf)`, on any
exception with `(false, {})` — the error argument of `done` is `null` in
both cases, so the outer `Except` is always `ok`. The empty object `{}` is
modelled as `none`. -/
def upnpResolve (probe : Except String UpnpNetConf) :
    Except String (Bool × Option UpnpNetConf) :=
  match probe with
  | Except.ok c => Except.ok (true, some c)
  | Except.error _ => Except.ok (false, none)

/-! ## The autoconf resolver (`networkReconfiguration` in `index.js`)

Only the `autoconf` branches are embedded: the interactive branches go
through the operator-prompt collaborator, which the claims do not touch. -/

/-- The defaulting `conf.port = conf.port || constants.DEFAULT_PORT` (and
likewise for `remoteport`); `DEFAULT_PORT` is a parameter since
`constants.js` is not under `src/`. -/
def orDefaultPort (p : Option Nat) (DEFAULT_PORT : Nat) : Option Nat :=
  if nTruthy p then p else some DEFAULT_PORT

/-- `_.extend(conf, upnpConf)`: overwrite the four own fields of the probe
result onto `conf` (extending with the empty object `{}` changes nothing). -/
def extendConf (conf : Conf) : Option UpnpNetConf → Conf
  | none => conf
  | some u =>
    { conf with
      remoteipv4 := u.remoteipv4, remoteport := some u.remoteport,
      port := some u.port, ipv4 := u.ipv4 }

/-- The single operation of `getUseUPnPOperations` under `autoconf`: a falsy
`conf.ipv4` forces `upnp = false`; otherwise autoconf sets `upnp = true`. -/
def useUPnPOperationAutoconf (conf : Conf) : Conf :=
  if !(sTruthy conf.ipv4) then { conf with upnp := some false }
  else { conf with upnp := some true }

/-- The single operation of `getHostnameOperations` under `autoconf`: a falsy
`conf.ipv4` clears `remotehost`; otherwise autoconf only logs. -/
def hostnameOperationAutoconf (conf : Conf) : Conf :=
  if !(sTruthy conf.ipv4) then { conf with remotehost := none } else conf

/-- The three operations of `getLocalNetworkOperations` under `autoconf`:
pick the best local IPv4, set `ipv6` and `remoteipv6` to the best local
IPv6, then set the local port from `getRandomPort` on the current `conf`. -/
def localOperationsAutoconf (PORT_START rnd : Nat) (ifs : List NetInterface)
    (conf : Conf) : Conf :=
  let conf1 := { conf with ipv4 := some (getBestLocalIPv4 ifs) }
  let best6 := getBestLocalIPv6 ifs
  let conf2 := { conf1 with ipv6 := best6, remoteipv6 := best6 }
  { conf2 with port := some (getRandomPort PORT_START rnd conf2) }

/-- The `upnpSuccess && autoconf` branch of `networkReconfiguration`:
extend `conf` with the probe result, recompute `ipv6` and `remoteipv6` as
the best local IPv6, then run the UPnP-usage and hostname operations. -/
def upnpAvailableAutoconf (ifs : List NetInterface) (u : Option UpnpNetConf)
    (conf : Conf) : Conf :=
  let conf1 := extendConf conf u
  let best6 := getBestLocalIPv6 ifs
  let conf2 := { conf1 with ipv6 := best6, remoteipv6 := best6 }
  hostnameOperationAutoconf (useUPnPOperationAutoconf conf2)

/-- The `!upnpSuccess && autoconf` branch of `networkReconfiguration`: set
`upnp = false`, run the local operations and the hostname operation, then
mirror local into remote (`remoteipv4 = ipv4`, `remoteipv6 = ipv6`,
`remoteport = port`). -/
def upnpUnavailableAutoconf (PORT_START rnd : Nat) (ifs : List NetInterface)
    (conf : Conf) : Conf :=
  let conf1 := { conf with upnp := some false }
  let conf2 := localOperationsAutoconf PORT_START rnd ifs conf1
  let conf3 := hostnameOperationAutoconf conf2
  { conf3 with
    remoteipv4 := conf3.ipv4, remoteipv6 := conf3.ipv6, remoteport := conf3.port }

/-- `networkReconfiguration` of `index.js`, restricted to `autoconf = true`:
after the probe, default `port` and `remoteport`, then fork on the probe
outcome. -/
def networkReconfigurationAutoconf (DEFAULT_PORT PORT_START rnd : Nat)
    (ifs : List NetInterface) (upnpSuccess : Bool) (u : Option UpnpNetConf)
    (conf : Conf) : Conf :=
  let conf1 :=
    { conf with
      port := orDefaultPort conf.port DEFAULT_PORT,
      remoteport := orDefaultPort conf.remoteport DEFAULT_PORT }
  if upnpSuccess then upnpAvailableAutoconf ifs u conf1
  else upnpUnavailableAutoconf PORT_START rnd ifs conf1

/-- The whole autoconf resolution: `upnpResolve` feeding
`networkReconfiguration` through the `async.waterfall` of `index.js`. -/
def resolveAndReconfigure (DEFAULT_PORT PORT_START rnd : Nat)
    (ifs : List NetInterface) (probe : Except String UpnpNetConf)
    (conf : Conf) : Except String Conf :=
  match upnpResolve probe with
  | Except.error e => Except.error e
  | Except.ok (success, u) =>
    Except.ok (networkReconfigurationAutoconf DEFAULT_PORT PORT_START rnd ifs success u conf)

/-! ## Final validation (`onLoading` in `index.js`, lines 90-99) -/

/-- The configuration-error block at the end of `onLoading`: three checks in
order, each throwing its own message; a configuration passing all three
completes without error. -/
def onLoadingValidation (conf : Conf) : Except String Unit :=
  if !(sTruthy conf.ipv4) && !(sTruthy conf.ipv6) then
    Except.error "No interface to listen to."
  else if !(sTruthy conf.remoteipv4) && !(sTruthy conf.remoteipv6) && !(sTruthy conf.remotehost) then
    Except.error "No interface for remote contact."
  else if !(nTruthy conf.remoteport) then
    Except.error "No port for remote contact."
  else
    Except.ok ()

/-! ## Listener lifecycle (`createServersAndListen` in `lib/network.js`)

One entry per configured interface: the `listenings[i]` flag and the
per-server socket registry `sockets`. The effects on the operating system
are recorded as a trace of actions: `listen i` is the call binding server
`i`, `destroySocket i sid` the forced `socket.destroy()` of tracked
connection `sid`, and `closeListener i` the `httpServer.close()` call. -/

/-- The per-interface server state: the `listenings[i]` flag and the ids of
the connections currently tracked in the server's socket registry. -/
structure Srv where
  listening : Bool
  sockets : List Nat
deriving DecidableEq, Repr

/-- An observable effect of `openConnections` / `closeConnections`. -/
inductive NetAction where
  | listen (i : Nat)
  | destroySocket (i : Nat) (sid : Nat)
  | closeListener (i : Nat)
deriving DecidableEq, Repr

/-- One iteration of the `openConnections` loop: an already-listening server
is skipped entirely; otherwise `httpServer.listen` is attempted (`bindOk i`
tells whether the bind succeeds) and a failure is caught and logged, leaving
the flag down. -/
def openOne (bindOk : Nat → Bool) (i : Nat) (s : Srv) : Srv × List NetAction :=
  if s.listening then (s, [])
  else if bindOk i then ({ s with listening := true }, [NetAction.listen i])
  else (s, [NetAction.listen i])

/-- The `openConnections` loop over servers `i, i+1, ...`. -/
def openGo (bindOk : Nat → Bool) (i : Nat) : List Srv → List Srv × List NetAction
  | [] => ([], [])
  | s :: rest =>
    let r1 := openOne bindOk i s
    let r2 := openGo bindOk (i + 1) rest
    (r1.1 :: r2.1, r1.2 ++ r2.2)

/-- `openConnections` of `lib/network.js`: bind every not-yet-listening
server, catching per-interface bind failures. -/
def openConnections (bindOk : Nat → Bool) (srvs : List Srv) :
    List Srv × List NetAction :=
  openGo bindOk 0 srvs

/-- One iteration of the `closeConnections` loop: a listening server first
has every tracked socket destroyed (`closeSockets()`), then its listening
socket closed, and its flag lowered; a non-listening server is skipped. -/
def closeOne (i : Nat) (s : Srv) : Srv × List NetAction :=
  if s.listening then
    ({ listening := false, sockets := [] },
     s.sockets.map (NetAction.destroySocket i) ++ [NetAction.closeListener i])
  else (s, [])

/-- The `closeConnections` loop over servers `i, i+1, ...`. -/
def closeGo (i : Nat) : List Srv → List Srv × List NetAction
  | [] => ([], [])
  | s :: rest =>
    let r1 := closeOne i s
    let r2 := closeGo (i + 1) rest
    (r1.1 :: r2.1, r1.2 ++ r2.2)

/-- `closeConnections` of `lib/network.js`. -/
def closeConnections (srvs : List Srv) : List Srv × List NetAction :=
  closeGo 0 srvs

/-- The server index an action concerns. -/
def actionIdx : NetAction → Nat
  | NetAction.listen i => i
  | NetAction.destroySocket i _ => i
  | NetAction.closeListener i => i

/-! ## Concrete inputs used by the examples and witnesses -/

/-- A synthetic interface list with only a `lo`-named loopback and an
`eth0`-named interface. -/
def loEthInterfaces : List NetInterface :=
  [ { name := "lo",
      addresses := [{ family := "IPv4", address := "127.0.0.1", internal := true, scopeid := 0 }] },
    { name := "eth0",
      addresses := [{ family := "IPv4", address := "192.168.1.10", internal := false, scopeid := 0 }] } ]

/-- Two interfaces whose names have the same priority rank, for the
enumeration-order tie-break. -/
def twoEthInterfaces : List NetInterface :=
  [ { name := "eth0",
      addresses := [{ family := "IPv4", address := "10.0.0.1", internal := false, scopeid := 0 }] },
    { name := "eth1",
      addresses := [{ family := "IPv4", address := "10.0.0.2", internal := false, scopeid := 0 }] } ]

/-- Two interfaces with globally routable IPv6 addresses: the earlier one in
enumeration order carries the lower-priority name `lo`, the later one the
higher-priority name `eth0`. -/
def loEthIPv6Interfaces : List NetInterface :=
  [ { name := "lo",
      addresses := [{ family := "IPv6", address := "2001:db8::1", internal := false, scopeid := 0 }] },
    { name := "eth0",
      addresses := [{ family := "IPv6", address := "2001:db8::2", internal := false, scopeid := 0 }] } ]

/-- An interface with only a non-qualifying (internal loopback) IPv6
address. -/
def internalLoInterface : NetInterface :=
  { name := "lo",
    addresses := [{ family := "IPv6", address := "::1", internal := true, scopeid := 0 }] }

/-- An interface with one globally routable IPv6 address. -/
def globalEthInterface : NetInterface :=
  { name := "eth0",
    addresses := [{ family := "IPv6", address := "2001:db8::2", internal := false, scopeid := 0 }] }

/-- A probe result with the example external IP and port of the spec. -/
def demoProbe : UpnpNetConf :=
  { remoteipv4 := some "203.0.113.5", remoteport := 20900, port := 20900,
    ipv4 := some "192.168.1.10" }

/-- A listener set with one listening server tracking two connections and
one non-listening server. -/
def demoSrvs : List Srv :=
  [ { listening := true, sockets := [5, 7] },
    { listening := false, sockets := [] } ]

/-- A bind environment in which every bind succeeds. -/
def demoBind : Nat → Bool := fun _ => true

/-- A configuration with no local interface at all. -/
def noLocalConf : Conf :=
  { remoteipv4 := some "203.0.113.5", remoteport := some 20900 }

/-- A configuration with a local interface but no remote contact form. -/
def noRemoteConf : Conf :=
  { ipv4 := some "192.168.1.10" }

/-- A configuration with local and remote interfaces but no remote port. -/
def noPortConf : Conf :=
  { ipv4 := some "192.168.1.10", remoteipv4 := some "203.0.113.5" }

/-- A configuration satisfying all three validation invariants. -/
def validConf : Conf :=
  { ipv4 := some "192.168.1.10", remoteipv4 := some "203.0.113.5", remoteport := some 20900 }

/-! ## Helper lemmas about the best-candidate selection -/

/-- Unfolding `bestOf` when the tail has no best candidate. -/
theorem bestOf_cons_none {c : Cand} {cs : List Cand} (h : bestOf cs = none) :
    bestOf (c :: cs) = some c := by
  rw [bestOf, h]

/-- Unfolding `bestOf` when the tail has a best candidate. -/
theorem bestOf_cons_some {c : Cand} {cs : List Cand} {b0 : Cand} (h : bestOf cs = some b0) :
    bestOf (c :: cs)
      = if nameRank b0.name < nameRank c.name then some b0 else some c := by
  rw [bestOf, h]

/-- A non-empty candidate list always has a best candidate. -/
theorem bestOf_ne_none (c : Cand) (cs : List Cand) : bestOf (c :: cs) ≠ none := by
  cases hcs : bestOf cs with
  | none => simp [bestOf_cons_none hcs]
  | some b0 =>
    rw [bestOf_cons_some hcs]
    by_cases hlt : nameRank b0.name < nameRank c.name
    · simp [hlt]
    · simp [hlt]

/-- The best candidate is a member of the list, its rank is minimal, and it
is the first list element attaining that rank: every element strictly before
it has strictly greater rank (the stable-sort tie-break). -/
theorem bestOf_spec (l : List Cand) : ∀ b : Cand, bestOf l = some b →
    b ∈ l ∧ (∀ c ∈ l, nameRank b.name ≤ nameRank c.name)
    ∧ ∃ pre post, l = pre ++ b :: post ∧ ∀ c ∈ pre, nameRank b.name < nameRank c.name := by
  induction l with
  | nil =>
    intro b h
    simp [bestOf] at h
  | cons c cs ih =>
    intro b h
    cases hcs : bestOf cs with
    | none =>
      have hnil : cs = [] := by
        cases cs with
        | nil => rfl
        | cons d ds => exact absurd hcs (bestOf_ne_none d ds)
      subst hnil
      rw [bestOf_cons_none hcs] at h
      simp at h
      subst h
      refine ⟨by simp, by simp, [], [], by simp, by simp⟩
    | some b0 =>
      obtain ⟨hmem0, hmin0, pre0, post0, heq0, hpre0⟩ := ih b0 hcs
      rw [bestOf_cons_some hcs] at h
      by_cases hlt : nameRank b0.name < nameRank c.name
      · rw [if_pos hlt] at h
        simp at h
        subst h
        refine ⟨by simp [hmem0], ?_, c :: pre0, post0, by simp [heq0], ?_⟩
        · intro x hx
          rcases List.mem_cons.mp hx with hx | hx
          · subst hx
            exact Nat.le_of_lt hlt
          · exact hmin0 x hx
        · intro x hx
          rcases List.mem_cons.mp hx with hx | hx
          · subst hx
            exact hlt
          · exact hpre0 x hx
      · rw [if_neg hlt] at h
        simp at h
        subst h
        refine ⟨by simp, ?_, [], cs, by simp, by simp⟩
        intro x hx
        rcases List.mem_cons.mp hx with hx | hx
        · subst hx
          exact Nat.le_refl _
        · exact Nat.le_trans (Nat.le_of_not_lt hlt) (hmin0 x hx)

/-- A string with an empty character list is the empty string. -/
theorem string_eq_empty_of_data_nil {s : String} (h : s.data.isEmpty = true) : s = "" := by
  cases s with
  | mk data =>
    cases data with
    | nil => rfl
    | cons c cs => simp [List.isEmpty] at h

/-- When a best candidate exists, `getBestLocal` returns its value (also
when that value is the empty string, since the fallback is then equal). -/
theorem getBestLocal_eq_value {family : String} {ifs : List NetInterface} {b : Cand}
    (h : bestOf (candidates family ifs) = some b) :
    getBestLocal family ifs = b.value := by
  unfold getBestLocal
  rw [h]
  show (if b.value.data.isEmpty then "" else b.value) = b.value
  by_cases he : b.value.data.isEmpty = true
  · rw [if_pos he]
    exact (string_eq_empty_of_data_nil he).symm
  · rw [if_neg (by simpa using he)]

/-! ## Helper lemmas about the IPv6 selection -/

/-- Unfolding `getBestLocalIPv6` when the head interface has a qualifying
address. -/
theorem getBestLocalIPv6_cons_some {ni : NetInterface} {rest : List NetInterface} {a : Addr}
    (h : ni.addresses.find? ipv6Qualifies = some a) :
    getBestLocalIPv6 (ni :: rest) = some a.address := by
  rw [getBestLocalIPv6, h]

/-- Unfolding `getBestLocalIPv6` when the head interface has none. -/
theorem getBestLocalIPv6_cons_none {ni : NetInterface} {rest : List NetInterface}
    (h : ni.addresses.find? ipv6Qualifies = none) :
    getBestLocalIPv6 (ni :: rest) = getBestLocalIPv6 rest := by
  rw [getBestLocalIPv6, h]

/-- Every address the IPv6 selection returns belongs to some interface of
the list and passes the qualification filter. -/
theorem getBestLocalIPv6_qualifies (ifs : List NetInterface) : ∀ a : String,
    getBestLocalIPv6 ifs = some a →
    ∃ ni ∈ ifs, ∃ ad ∈ ni.addresses, ipv6Qualifies ad = true ∧ ad.address = a := by
  induction ifs with
  | nil =>
    intro a h
    simp [getBestLocalIPv6] at h
  | cons ni rest ih =>
    intro a h
    cases hf : ni.addresses.find? ipv6Qualifies with
    | some ad =>
      rw [getBestLocalIPv6_cons_some hf] at h
      simp at h
      exact ⟨ni, by simp, ad, List.mem_of_find?_eq_some hf, List.find?_some hf, h⟩
    | none =>
      rw [getBestLocalIPv6_cons_none hf] at h
      obtain ⟨ni0, hni0, ad, had, hq, ha⟩ := ih a h
      exact ⟨ni0, by simp [hni0], ad, had, hq, ha⟩

/-- When no address qualifies, the IPv6 selection returns `null`. -/
theorem getBestLocalIPv6_none (ifs : List NetInterface)
    (h : ∀ ni ∈ ifs, ∀ ad ∈ ni.addresses, ipv6Qualifies ad = false) :
    getBestLocalIPv6 ifs = none := by
  induction ifs with
  | nil => rfl
  | cons ni rest ih =>
    have hf : ni.addresses.find? ipv6Qualifies = none := by
      rw [List.find?_eq_none]
      intro ad had
      simp [h ni (by simp) ad had]
    rw [getBestLocalIPv6_cons_none hf]
    exact ih (fun x hx ad had => h x (by simp [hx]) ad had)

/-- The IPv6 selection returns the first qualifying address in OS
enumeration order: whatever interface first has one wins, regardless of
interface names. -/
theorem getBestLocalIPv6_first (pre : List NetInterface) : ∀ (ni : NetInterface)
    (post : List NetInterface),
    (∀ x ∈ pre, ∀ ad ∈ x.addresses, ipv6Qualifies ad = false) →
    ∀ ad : Addr, ni.addresses.find? ipv6Qualifies = some ad →
    getBestLocalIPv6 (pre ++ ni :: post) = some ad.address := by
  induction pre with
  | nil =>
    intro ni post _ ad hf
    simpa using getBestLocalIPv6_cons_some hf
  | cons x xs ih =>
    intro ni post h ad hf
    have hx : x.addresses.find? ipv6Qualifies = none := by
      rw [List.find?_eq_none]
      intro a ha
      simp [h x (by simp) a ha]
    rw [List.cons_append, getBestLocalIPv6_cons_none hx]
    exact ih ni post (fun y hy a ha => h y (by simp [hy]) a ha) ad hf

/-! ## Helper lemmas about the listener lifecycle -/

/-- The entry at position `i` after `openGo` is the head entry processed by
`openOne` at index `off + i`. -/
theorem openGo_getElem (bindOk : Nat → Bool) (srvs : List Srv) : ∀ (off i : Nat),
    (openGo bindOk off srvs).1[i]? = (srvs[i]?).map (fun s => (openOne bindOk (off + i) s).1) := by
  induction srvs with
  | nil =>
    intro off i
    simp [openGo]
  | cons s rest ih =>
    intro off i
    cases i with
    | zero => simp [openGo]
    | succ n =>
      simp only [openGo, List.getElem?_cons_succ]
      rw [ih (off + 1) n]
      have harith : off + 1 + n = off + (n + 1) := by omega
      rw [harith]

/-- Every `listen` action of `openGo` concerns an entry whose listening flag
was down. -/
theorem openGo_listen_mem (bindOk : Nat → Bool) (srvs : List Srv) : ∀ (off j : Nat),
    NetAction.listen j ∈ (openGo bindOk off srvs).2 →
    ∃ k s, srvs[k]? = some s ∧ j = off + k ∧ s.listening = false := by
  induction srvs with
  | nil =>
    intro off j h
    simp [openGo] at h
  | cons s rest ih =>
    intro off j h
    simp only [openGo, List.mem_append] at h
    rcases h with h | h
    · have hs : s.listening = false ∧ j = off := by
        unfold openOne at h
        by_cases hl : s.listening
        · simp [hl] at h
        · by_cases hb : bindOk off
          · simp [hl, hb] at h
            cases h
            simp [hl]
          · simp [hl, hb] at h
            cases h
            simp [hl]
      exact ⟨0, s, by simp, by omega, hs.1⟩
    · obtain ⟨k, s0, hk, hj, hl⟩ := ih (off + 1) j h
      exact ⟨k + 1, s0, by simpa using hk, by omega, hl⟩

/-- On an all-listening list, `openGo` changes nothing and emits nothing. -/
theorem openGo_all_listening (bindOk : Nat → Bool) (srvs : List Srv) : ∀ off : Nat,
    (∀ s ∈ srvs, s.listening = true) → openGo bindOk off srvs = (srvs, []) := by
  induction srvs with
  | nil =>
    intro off _
    rfl
  | cons s rest ih =>
    intro off h
    have hs : s.listening = true := h s (by simp)
    simp only [openGo, openOne, hs, if_true, ih (off + 1) (fun x hx => h x (by simp [hx])),
      List.nil_append]

/-- After `openGo` with an all-successful bind environment, every entry
listens. -/
theorem openGo_listening_after (srvs : List Srv) : ∀ off : Nat,
    ∀ s ∈ (openGo (fun _ => true) off srvs).1, s.listening = true := by
  induction srvs with
  | nil =>
    intro off s h
    simp [openGo] at h
  | cons s rest ih =>
    intro off x hx
    simp only [openGo, List.mem_cons] at hx
    rcases hx with hx | hx
    · subst hx
      unfold openOne
      by_cases hl : s.listening
      · simp [hl]
      · simp [hl]
    · exact ih (off + 1) x hx

/-- The entry at position `i` after `closeGo` is the head entry processed by
`closeOne` at index `off + i`. -/
theorem closeGo_getElem (srvs : List Srv) : ∀ (off i : Nat),
    (closeGo off srvs).1[i]? = (srvs[i]?).map (fun s => (closeOne (off + i) s).1) := by
  induction srvs with
  | nil =>
    intro off i
    simp [closeGo]
  | cons s rest ih =>
    intro off i
    cases i with
    | zero => simp [closeGo]
    | succ n =>
      simp only [closeGo, List.getElem?_cons_succ]
      rw [ih (off + 1) n]
      have harith : off + 1 + n = off + (n + 1) := by omega
      rw [harith]

/-- Every action `closeGo` emits concerns an entry whose listening flag was
up. -/
theorem closeGo_mem_idx (srvs : List Srv) : ∀ (off : Nat) (a : NetAction),
    a ∈ (closeGo off srvs).2 →
    ∃ k s, srvs[k]? = some s ∧ s.listening = true ∧ actionIdx a = off + k := by
  induction srvs with
  | nil =>
    intro off a h
    simp [closeGo] at h
  | cons s rest ih =>
    intro off a h
    simp only [closeGo, List.mem_append] at h
    rcases h with h | h
    · unfold closeOne at h
      by_cases hl : s.listening
      · simp only [hl, if_true] at h
        refine ⟨0, s, by simp, hl, ?_⟩
        simp only [List.mem_append] at h
        rcases h with h | h
        · obtain ⟨sid, _, ha⟩ := List.mem_map.mp h
          subst ha
          simp [actionIdx]
        · simp at h
          subst h
          simp [actionIdx]
      · simp [hl] at h
    · obtain ⟨k, s0, hk, hl, hidx⟩ := ih (off + 1) a h
      exact ⟨k + 1, s0, by simpa using hk, hl, by omega⟩

/-- On an all-non-listening list, `closeGo` changes nothing and emits
nothing. -/
theorem closeGo_all_not_listening (srvs : List Srv) : ∀ off : Nat,
    (∀ s ∈ srvs, s.listening = false) → closeGo off srvs = (srvs, []) := by
  induction srvs with
  | nil =>
    intro off _
    rfl
  | cons s rest ih =>
    intro off h
    have hs : s.listening = false := h s (by simp)
    simp only [closeGo, closeOne, hs, Bool.false_eq_true, if_false,
      ih (off + 1) (fun x hx => h x (by simp [hx])), List.nil_append]

/-- After `closeGo`, no entry listens. -/
theorem closeGo_not_listening_after (srvs : List Srv) : ∀ off : Nat,
    ∀ s ∈ (closeGo off srvs).1, s.listening = false := by
  induction srvs with
  | nil =>
    intro off s h
    simp [closeGo] at h
  | cons s rest ih =>
    intro off x hx
    simp only [closeGo, List.mem_cons] at hx
    rcases hx with hx | hx
    · subst hx
      unfold closeOne
      by_cases hl : s.listening
      · simp [hl]
      · simp [hl]
    · exact ih (off + 1) x hx

/-- The action trace of `closeGo` contains, for each listening entry, the
contiguous segment destroying every tracked socket of that entry followed
immediately by the close of its listening socket. -/
theorem closeGo_segment (srvs : List Srv) : ∀ (off i : Nat) (s : Srv),
    srvs[i]? = some s → s.listening = true →
    ∃ pre post, (closeGo off srvs).2
      = pre ++ (s.sockets.map (NetAction.destroySocket (off + i))
          ++ [NetAction.closeListener (off + i)]) ++ post := by
  induction srvs with
  | nil =>
    intro off i s h
    simp at h
  | cons x rest ih =>
    intro off i s h hl
    cases i with
    | zero =>
      simp at h
      subst h
      refine ⟨[], (closeGo (off + 1) rest).2, ?_⟩
      simp only [closeGo, closeOne, hl, if_true, List.nil_append, Nat.add_zero]
    | succ n =>
      simp only [List.getElem?_cons_succ] at h
      obtain ⟨pre0, post0, heq⟩ := ih (off + 1) n s h hl
      refine ⟨(closeOne off x).2 ++ pre0, post0, ?_⟩
      have harith : off + 1 + n = off + (n + 1) := by omega
      simp only [closeGo, heq, harith, List.append_assoc]

/-- After `closeGo`, every entry's tracked-socket registry is empty,
provided non-listening entries tracked none to begin with. -/
theorem closeGo_sockets_empty (srvs : List Srv) : ∀ off : Nat,
    (∀ s ∈ srvs, s.listening = false → s.sockets = []) →
    ∀ s ∈ (closeGo off srvs).1, s.sockets = [] := by
  induction srvs with
  | nil =>
    intro off _ s h
    simp [closeGo] at h
  | cons x rest ih =>
    intro off h s hs
    simp only [closeGo, List.mem_cons] at hs
    rcases hs with hs | hs
    · subst hs
      unfold closeOne
      by_cases hl : x.listening
      · simp [hl]
      · simp only [hl, Bool.false_eq_true, if_false]
        exact h x (by simp) (by simpa using hl)
    · exact ih (off + 1) (fun y hy => h y (by simp [hy])) s hs

/-! ## Claim theorems -/

/-- C1: in an autoconf resolution whose UPnP probe succeeds, supplying an
external IPv4, a gateway-local IPv4 and a probed port, the resulting
configuration adopts the probed values outright: `remoteipv4` is the
probe's external IPv4, `remoteport` the probed port, `upnp` is set to
`true` (the probe supplied a local IPv4), and both `ipv6` and `remoteipv6`
are recomputed as the best local IPv6 (possibly absent). -/
theorem C1_autoconf_upnp_available_adopts_probe (DP PS rnd : Nat)
    (ifs : List NetInterface) (u : UpnpNetConf) (conf : Conf)
    (hext : sTruthy u.remoteipv4 = true) (hloc : sTruthy u.ipv4 = true) :
    (networkReconfigurationAutoconf DP PS rnd ifs true (some u) conf).remoteipv4 = u.remoteipv4
    ∧ (networkReconfigurationAutoconf DP PS rnd ifs true (some u) conf).remoteport
        = some u.remoteport
    ∧ (networkReconfigurationAutoconf DP PS rnd ifs true (some u) conf).upnp = some true
    ∧ (networkReconfigurationAutoconf DP PS rnd ifs true (some u) conf).ipv6
        = getBestLocalIPv6 ifs
    ∧ (networkReconfigurationAutoconf DP PS rnd ifs true (some u) conf).remoteipv6
        = getBestLocalIPv6 ifs := by
  unfold networkReconfigurationAutoconf upnpAvailableAutoconf extendConf
    useUPnPOperationAutoconf hostnameOperationAutoconf
  simp [hloc]

/-- Witness for C1: with the spec's example probe (external IP
`203.0.113.5`, port `20900`) on a concrete interface list. -/
theorem C1_autoconf_upnp_available_adopts_probe_witness :
    (networkReconfigurationAutoconf 10901 15000 0 loEthIPv6Interfaces true (some demoProbe)
        {}).remoteipv4 = some "203.0.113.5"
    ∧ (networkReconfigurationAutoconf 10901 15000 0 loEthIPv6Interfaces true (some demoProbe)
        {}).remoteport = some 20900
    ∧ (networkReconfigurationAutoconf 10901 15000 0 loEthIPv6Interfaces true (some demoProbe)
        {}).upnp = some true
    ∧ (networkReconfigurationAutoconf 10901 15000 0 loEthIPv6Interfaces true (some demoProbe)
        {}).ipv6 = getBestLocalIPv6 loEthIPv6Interfaces
    ∧ (networkReconfigurationAutoconf 10901 15000 0 loEthIPv6Interfaces true (some demoProbe)
        {}).remoteipv6 = getBestLocalIPv6 loEthIPv6Interfaces :=
  C1_autoconf_upnp_available_adopts_probe 10901 15000 0 loEthIPv6Interfaces demoProbe {}
    (by decide) (by decide)

/-- C2: in an autoconf resolution whose UPnP probe fails, the resulting
configuration mirrors local into remote — `remoteipv4 = ipv4`,
`remoteipv6 = ipv6`, `remoteport = port` — and `upnp` is set to `false`. -/
theorem C2_autoconf_upnp_unavailable_mirrors_local (DP PS rnd : Nat)
    (ifs : List NetInterface) (u : Option UpnpNetConf) (conf : Conf) :
    (networkReconfigurationAutoconf DP PS rnd ifs false u conf).remoteipv4
      = (networkReconfigurationAutoconf DP PS rnd ifs false u conf).ipv4
    ∧ (networkReconfigurationAutoconf DP PS rnd ifs false u conf).remoteipv6
      = (networkReconfigurationAutoconf DP PS rnd ifs false u conf).ipv6
    ∧ (networkReconfigurationAutoconf DP PS rnd ifs false u conf).remoteport
      = (networkReconfigurationAutoconf DP PS rnd ifs false u conf).port
    ∧ (networkReconfigurationAutoconf DP PS rnd ifs false u conf).upnp = some false := by
  unfold networkReconfigurationAutoconf upnpUnavailableAutoconf hostnameOperationAutoconf
    localOperationsAutoconf
  simp
  split <;> simp

/-- C3: the final validation fails with the distinct error of the first
violated invariant — no local interface when `ipv4` and `ipv6` are both
absent, regardless of the other fields; otherwise no remote interface when
`remoteipv4`, `remoteipv6` and `remotehost` are all absent; otherwise no
remote port when `remoteport` is absent — and passes without error when all
three invariants hold. -/
theorem C3_validation_distinct_errors (conf : Conf) :
    (sTruthy conf.ipv4 = false → sTruthy conf.ipv6 = false →
      onLoadingValidation conf = Except.error "No interface to listen to.")
    ∧ ((sTruthy conf.ipv4 || sTruthy conf.ipv6) = true →
        sTruthy conf.remoteipv4 = false → sTruthy conf.remoteipv6 = false →
        sTruthy conf.remotehost = false →
        onLoadingValidation conf = Except.error "No interface for remote contact.")
    ∧ ((sTruthy conf.ipv4 || sTruthy conf.ipv6) = true →
        (sTruthy conf.remoteipv4 || sTruthy conf.remoteipv6 || sTruthy conf.remotehost) = true →
        nTruthy conf.remoteport = false →
        onLoadingValidation conf = Except.error "No port for remote contact.")
    ∧ ((sTruthy conf.ipv4 || sTruthy conf.ipv6) = true →
        (sTruthy conf.remoteipv4 || sTruthy conf.remoteipv6 || sTruthy conf.remotehost) = true →
        nTruthy conf.remoteport = true →
        onLoadingValidation conf = Except.ok ()) := by
  unfold onLoadingValidation
  refine ⟨?_, ?_, ?_, ?_⟩ <;> intros <;> split_ifs <;> simp_all

/-- Witness for C3: one concrete configuration per validation outcome. -/
theorem C3_validation_distinct_errors_witness :
    onLoadingValidation noLocalConf = Except.error "No interface to listen to."
    ∧ onLoadingValidation noRemoteConf = Except.error "No interface for remote contact."
    ∧ onLoadingValidation noPortConf = Except.error "No port for remote contact."
    ∧ onLoadingValidation validConf = Except.ok () :=
  ⟨(C3_validation_distinct_errors noLocalConf).1 (by decide) (by decide),
   (C3_validation_distinct_errors noRemoteConf).2.1 (by decide) (by decide) (by decide)
     (by decide),
   (C3_validation_distinct_errors noPortConf).2.2.1 (by decide) (by decide) (by decide),
   (C3_validation_distinct_errors validConf).2.2.2 (by decide) (by decide) (by decide)⟩

/-- C4: open and close are idempotent on the listener set — `open` binds
only entries whose listening flag is down (an already-listening entry is
skipped and left unchanged, so a second open after a fully successful one
produces no action at all, in particular no duplicate bound socket and no
error), and `close` closes only entries whose listening flag is up (a
non-listening entry produces no action and is left unchanged, so a second
close skips every entry and produces no error). -/
theorem C4_open_close_idempotent :
    (∀ (bindOk : Nat → Bool) (srvs : List Srv) (i : Nat) (s : Srv),
        srvs[i]? = some s → s.listening = true →
        NetAction.listen i ∉ (openConnections bindOk srvs).2
        ∧ (openConnections bindOk srvs).1[i]? = some s)
    ∧ (∀ (bindOk2 : Nat → Bool) (srvs : List Srv),
        openConnections bindOk2 (openConnections (fun _ => true) srvs).1
          = ((openConnections (fun _ => true) srvs).1, []))
    ∧ (∀ (srvs : List Srv) (i : Nat) (s : Srv),
        srvs[i]? = some s → s.listening = false →
        NetAction.closeListener i ∉ (closeConnections srvs).2
        ∧ (∀ sid : Nat, NetAction.destroySocket i sid ∉ (closeConnections srvs).2)
        ∧ (closeConnections srvs).1[i]? = some s)
    ∧ (∀ srvs : List Srv,
        closeConnections (closeConnections srvs).1 = ((closeConnections srvs).1, [])) := by
  refine ⟨?_, ?_, ?_, ?_⟩
  · intro bindOk srvs i s h hl
    constructor
    · intro hmem
      obtain ⟨k, s0, hk, hik, hl0⟩ := openGo_listen_mem bindOk srvs 0 i hmem
      have hki : k = i := by omega
      subst hki
      rw [h] at hk
      cases hk
      rw [hl] at hl0
      exact absurd hl0 (by simp)
    · unfold openConnections
      rw [openGo_getElem bindOk srvs 0 i, h]
      simp [openOne, hl]
  · intro bindOk2 srvs
    exact openGo_all_listening bindOk2 _ 0 (openGo_listening_after srvs 0)
  · intro srvs i s h hl
    refine ⟨?_, ?_, ?_⟩
    · intro hmem
      obtain ⟨k, s0, hk, hl0, hidx⟩ := closeGo_mem_idx srvs 0 _ hmem
      have hki : k = i := by
        have hx := hidx
        simp [actionIdx] at hx
        omega
      subst hki
      rw [h] at hk
      cases hk
      rw [hl] at hl0
      exact absurd hl0 (by simp)
    · intro sid hmem
      obtain ⟨k, s0, hk, hl0, hidx⟩ := closeGo_mem_idx srvs 0 _ hmem
      have hki : k = i := by
        have hx := hidx
        simp [actionIdx] at hx
        omega
      subst hki
      rw [h] at hk
      cases hk
      rw [hl] at hl0
      exact absurd hl0 (by simp)
    · unfold closeConnections
      rw [closeGo_getElem srvs 0 i, h]
      simp [closeOne, hl]
  · intro srvs
    exact closeGo_all_not_listening _ 0 (closeGo_not_listening_after srvs 0)

/-- Witness for C4: the already-listening and the non-listening entries of a
concrete listener set are skipped by open and close respectively. -/
theorem C4_open_close_idempotent_witness :
    (NetAction.listen 0 ∉ (openConnections demoBind demoSrvs).2
      ∧ (openConnections demoBind demoSrvs).1[0]?
          = some { listening := true, sockets := [5, 7] })
    ∧ (NetAction.closeListener 1 ∉ (closeConnections demoSrvs).2
      ∧ (∀ sid : Nat, NetAction.destroySocket 1 sid ∉ (closeConnections demoSrvs).2)
      ∧ (closeConnections demoSrvs).1[1]? = some { listening := false, sockets := [] }) :=
  ⟨C4_open_close_idempotent.1 demoBind demoSrvs 0 { listening := true, sockets := [5, 7] }
     (by decide) (by decide),
   C4_open_close_idempotent.2.2.1 demoSrvs 1 { listening := false, sockets := [] }
     (by decide) (by decide)⟩

/-- C5: close is forceful and ordered — for every listening entry the close
trace contains the destruction of every connection tracked in that entry's
socket registry immediately followed by the close of its listening socket
(so every destroy of the entry precedes its listener close), and after
close completes every interface's tracked-connection registry is empty
(given the reachability invariant that non-listening entries track no
connections). -/
theorem C5_close_forceful_ordered :
    (∀ (srvs : List Srv) (i : Nat) (s : Srv), srvs[i]? = some s → s.listening = true →
        ∃ pre post, (closeConnections srvs).2
          = pre ++ (s.sockets.map (NetAction.destroySocket i)
              ++ [NetAction.closeListener i]) ++ post)
    ∧ (∀ srvs : List Srv, (∀ s ∈ srvs, s.listening = false → s.sockets = []) →
        ∀ s ∈ (closeConnections srvs).1, s.sockets = []) := by
  constructor
  · intro srvs i s h hl
    have hseg := closeGo_segment srvs 0 i s h hl
    simpa using hseg
  · intro srvs h s hs
    exact closeGo_sockets_empty srvs 0 h s hs

/-- Witness for C5: on a concrete listener set with two tracked
connections, the trace destroys both before closing the listener, and every
registry is empty afterwards. -/
theorem C5_close_forceful_ordered_witness :
    (∃ pre post, (closeConnections demoSrvs).2
      = pre ++ (([5, 7] : List Nat).map (NetAction.destroySocket 0)
          ++ [NetAction.closeListener 0]) ++ post)
    ∧ (∀ s ∈ (closeConnections demoSrvs).1, s.sockets = []) :=
  ⟨C5_close_forceful_ordered.1 demoSrvs 0 { listening := true, sockets := [5, 7] }
     (by decide) (by decide),
   C5_close_forceful_ordered.2 demoSrvs (by decide)⟩

/-- C6: the best-local-IPv4 selection returns the empty string when there is
no candidate, and otherwise returns the value of a candidate whose
interface-name priority rank is minimal and which is the earliest candidate
attaining that rank (OS enumeration order breaks ties); the rank order puts
tunnel names before wired Ethernet naming variants, those before wireless
variants, those before loopback and loopback before `None`; on the
loopback-plus-`eth0` list the `eth0` address is selected, never the
loopback. -/
theorem C6_best_ipv4_priority_order :
    (∀ ifs : List NetInterface, candidates "IPv4" ifs = [] → getBestLocalIPv4 ifs = "")
    ∧ (∀ (ifs : List NetInterface) (b : Cand), bestOf (candidates "IPv4" ifs) = some b →
        b ∈ candidates "IPv4" ifs
        ∧ getBestLocalIPv4 ifs = b.value
        ∧ (∀ c ∈ candidates "IPv4" ifs, nameRank b.name ≤ nameRank c.name)
        ∧ ∃ pre post, candidates "IPv4" ifs = pre ++ b :: post
            ∧ ∀ c ∈ pre, nameRank b.name < nameRank c.name)
    ∧ (nameRank "tun0" < nameRank "enp0s1" ∧ nameRank "enp0s1" < nameRank "eth0"
        ∧ nameRank "eth0" < nameRank "Ethernet" ∧ nameRank "Ethernet" < nameRank "wlan0"
        ∧ nameRank "wlan0" < nameRank "Wi-Fi" ∧ nameRank "Wi-Fi" < nameRank "lo"
        ∧ nameRank "lo" < nameRank "None")
    ∧ getBestLocalIPv4 loEthInterfaces = "192.168.1.10"
    ∧ getBestLocalIPv4 twoEthInterfaces = "10.0.0.1"
    ∧ getBestLocalIPv4 [] = "" := by
  refine ⟨?_, ?_, by decide, by decide, by decide, by decide⟩
  · intro ifs h
    unfold getBestLocalIPv4 getBestLocal
    rw [h]
    rfl
  · intro ifs b h
    obtain ⟨hmem, hmin, pre, post, heq, hpre⟩ := bestOf_spec (candidates "IPv4" ifs) b h
    exact ⟨hmem, getBestLocal_eq_value h, hmin, pre, post, heq, hpre⟩

/-- Witness for C6: the selection on the loopback-plus-`eth0` list. -/
theorem C6_best_ipv4_priority_order_witness :
    (⟨"eth0", "192.168.1.10"⟩ : Cand) ∈ candidates "IPv4" loEthInterfaces
    ∧ getBestLocalIPv4 loEthInterfaces = (Cand.mk "eth0" "192.168.1.10").value
    ∧ (∀ c ∈ candidates "IPv4" loEthInterfaces,
        nameRank (Cand.mk "eth0" "192.168.1.10").name ≤ nameRank c.name)
    ∧ ∃ pre post, candidates "IPv4" loEthInterfaces
        = pre ++ (⟨"eth0", "192.168.1.10"⟩ : Cand) :: post
        ∧ ∀ c ∈ pre, nameRank (Cand.mk "eth0" "192.168.1.10").name < nameRank c.name :=
  C6_best_ipv4_priority_order.2.1 loEthInterfaces ⟨"eth0", "192.168.1.10"⟩ (by decide)

/-- C7 counterexample: the claim says the IPv6 selection chooses among
qualifying addresses by the same interface-name priority order as the IPv4
selection; on a list where a low-priority `lo` interface precedes a
high-priority `eth0` interface, the priority order would pick the `eth0`
address `2001:db8::2`, but `getBestLocalIPv6` returns the `lo` address
`2001:db8::1` — the code scans in OS enumeration order and ignores the
ranking. -/
theorem C7_ipv6_selection_counterexample :
    getBestLocalIPv6 loEthIPv6Interfaces = some "2001:db8::1"
    ∧ specBestLocalIPv6 loEthIPv6Interfaces = some "2001:db8::2"
    ∧ getBestLocalIPv6 loEthIPv6Interfaces ≠ specBestLocalIPv6 loEthIPv6Interfaces := by
  decide

/-- C7 (amended): the best-local-IPv6 selection returns only an address
that is non-internal, has zero scope id and is neither `fe80`-prefixed nor
`::1`-prefixed; it scans interfaces in OS enumeration order and returns the
first qualifying address of the first interface that has one — without
applying the IPv4 interface-name priority order — and returns empty when no
address qualifies. -/
theorem C7_ipv6_selection_amended :
    (∀ (ifs : List NetInterface) (a : String), getBestLocalIPv6 ifs = some a →
        ∃ ni ∈ ifs, ∃ ad ∈ ni.addresses, ipv6Qualifies ad = true ∧ ad.address = a)
    ∧ (∀ ifs : List NetInterface,
        (∀ ni ∈ ifs, ∀ ad ∈ ni.addresses, ipv6Qualifies ad = false) →
        getBestLocalIPv6 ifs = none)
    ∧ (∀ (pre : List NetInterface) (ni : NetInterface) (post : List NetInterface),
        (∀ x ∈ pre, ∀ ad ∈ x.addresses, ipv6Qualifies ad = false) →
        ∀ ad : Addr, ni.addresses.find? ipv6Qualifies = some ad →
        getBestLocalIPv6 (pre ++ ni :: post) = some ad.address)
    ∧ (∀ a : Addr, ipv6Qualifies a = true ↔
        (a.family = "IPv6" ∧ a.scopeid = 0 ∧ a.internal = false
          ∧ charsStartWith "fe80".data a.address.data = false
          ∧ charsStartWith "::1".data a.address.data = false)) := by
  refine ⟨getBestLocalIPv6_qualifies, getBestLocalIPv6_none, getBestLocalIPv6_first, ?_⟩
  intro a
  simp [ipv6Qualifies, Bool.and_eq_true, beq_iff_eq, Bool.not_eq_true']
  tauto

/-- Witness for the amended C7: the first qualifying address in enumeration
order is selected once the earlier interface has no qualifying address. -/
theorem C7_ipv6_selection_amended_witness :
    getBestLocalIPv6 ([internalLoInterface] ++ globalEthInterface :: [])
      = some ({ family := "IPv6", address := "2001:db8::2", internal := false,
                scopeid := 0 } : Addr).address :=
  C7_ipv6_selection_amended.2.2.1 [internalLoInterface] globalEthInterface [] (by decide)
    { family := "IPv6", address := "2001:db8::2", internal := false, scopeid := 0 } (by decide)

/-- C8: local port selection reuses the already-known (truthy) remote port
whenever one is set, and otherwise draws a random port lying in the range
from the floor `PORT_START` up to `65535` (given the random draw lies in
the range of `~~(Math.random() * (65536 - PORT_START))`). -/
theorem C8_random_port_range_and_reuse (PORT_START rnd : Nat) (conf : Conf) :
    (∀ p : Nat, conf.remoteport = some p → p ≠ 0 →
      getRandomPort PORT_START rnd conf = p)
    ∧ (nTruthy conf.remoteport = false → rnd < 65536 - PORT_START →
        PORT_START ≤ getRandomPort PORT_START rnd conf
        ∧ getRandomPort PORT_START rnd conf ≤ 65535) := by
  constructor
  · intro p hp hne
    simp [getRandomPort, hp, hne]
  · intro h hr
    match hc : conf.remoteport with
    | none =>
      simp [getRandomPort, hc]
      omega
    | some p =>
      simp [nTruthy, hc] at h
      simp [getRandomPort, hc, h]
      omega

/-- Witness for C8: the probe port `20900` is reused, and a fresh draw with
floor `15000` lands in the range. -/
theorem C8_random_port_range_and_reuse_witness :
    getRandomPort 15000 0 { remoteport := some 20900 } = 20900
    ∧ (15000 ≤ getRandomPort 15000 123 {} ∧ getRandomPort 15000 123 {} ≤ 65535) :=
  ⟨(C8_random_port_range_and_reuse 15000 0 { remoteport := some 20900 }).1 20900 rfl
     (by decide),
   (C8_random_port_range_and_reuse 15000 123 {}).2 (by decide) (by decide)⟩

/-- C9: a UPnP probe failure is never fatal — `upnpResolve` completes
without propagating an error for every probe outcome, a probe exception
yields success `false` with the empty probe configuration, the whole
autoconf resolution never produces an error, and a failed probe routes the
resolver exactly to the UPnP-unavailable branch. -/
theorem C9_probe_failure_never_fatal :
    (∀ probe : Except String UpnpNetConf, ∃ r, upnpResolve probe = Except.ok r)
    ∧ (∀ e : String, upnpResolve (Except.error e) = Except.ok (false, none))
    ∧ (∀ (DP PS rnd : Nat) (ifs : List NetInterface) (conf : Conf)
        (probe : Except String UpnpNetConf),
        ∃ c, resolveAndReconfigure DP PS rnd ifs probe conf = Except.ok c)
    ∧ (∀ (DP PS rnd : Nat) (ifs : List NetInterface) (conf : Conf) (e : String),
        resolveAndReconfigure DP PS rnd ifs (Except.error e) conf
          = Except.ok (networkReconfigurationAutoconf DP PS rnd ifs false none conf)) := by
  refine ⟨?_, ?_, ?_, ?_⟩
  · intro probe
    cases probe <;> exact ⟨_, rfl⟩
  · intro e
    rfl
  · intro DP PS rnd ifs conf probe
    cases probe <;> exact ⟨_, rfl⟩
  · intro DP PS rnd ifs conf e
    rfl

/-- C10: when the probe itself succeeds, `upnpConf` sets `remoteipv4` to
the gateway-reported external IP exactly when that string matches the
dotted-quad IPv4 pattern and to null otherwise, and likewise sets `ipv4`
from the gateway-discovered local IP; in particular a successful probe can
yield a configuration with no remote IPv4 and no error. -/
theorem C10_upnp_conf_ipv4_pattern_filter :
    (∀ (PS rnd : Nat) (pub priv : String) (u : UpnpNetConf),
      upnpConf PS rnd false (Except.ok pub) (Except.ok ()) (Except.ok priv) = Except.ok u →
        u.remoteipv4 = (if matchIPv4 pub then some pub else none)
        ∧ u.ipv4 = (if matchIPv4 priv then some priv else none)
        ∧ u.remoteport = getRandomPort PS rnd {} ∧ u.port = getRandomPort PS rnd {})
    ∧ (∃ u, upnpConf 15000 0 false (Except.ok "MyGateway") (Except.ok ())
          (Except.ok "192.168.1.7") = Except.ok u
        ∧ u.remoteipv4 = none ∧ u.ipv4 = some "192.168.1.7") := by
  constructor
  · intro PS rnd pub priv u h
    simp [upnpConf] at h
    subst h
    simp
  · exact ⟨_, rfl, by decide, by decide⟩

/-- Witness for C10: a successful probe whose external IP does not match
the pattern yields null `remoteipv4` while the matching local IP is kept. -/
theorem C10_upnp_conf_ipv4_pattern_filter_witness :
    (⟨none, 15000, 15000, some "192.168.1.7"⟩ : UpnpNetConf).remoteipv4
        = (if matchIPv4 "MyGateway" then some "MyGateway" else none)
    ∧ (⟨none, 15000, 15000, some "192.168.1.7"⟩ : UpnpNetConf).ipv4
        = (if matchIPv4 "192.168.1.7" then some "192.168.1.7" else none)
    ∧ (⟨none, 15000, 15000, some "192.168.1.7"⟩ : UpnpNetConf).remoteport
        = getRandomPort 15000 0 {}
    ∧ (⟨none, 15000, 15000, some "192.168.1.7"⟩ : UpnpNetConf).port
        = getRandomPort 15000 0 {} :=
  C10_upnp_conf_ipv4_pattern_filter.1 15000 0 "MyGateway" "192.168.1.7"
    ⟨none, 15000, 15000, some "192.168.1.7"⟩ rfl

end DuniterBMA
